import Mathlib

/-!
Verification development for the Kafka broker connection manager
(`broker.go`): a per-node connection that pipelines concurrent callers'
requests onto one TCP stream via a Sender Worker and a Receiver Worker,
matching replies to pending promises by correlation id in FIFO order.

Bytes are modelled as `Nat` (values < 256 where produced by the encoders);
byte streams as `List Nat`.  Go channels are zero-capacity synchronous
queues with a single producer and single consumer at each use site, so the
worker loops are embedded as sequential list-processing functions whose
traces record the order of socket writes, queue handoffs and promise
deliveries.
-/

namespace Kafka

/-- Error taxonomy of the connection layer: `DecodingError` for malformed
descriptors and frames, `IOError` for socket read/write failures. -/
inductive BrokerError where
  | DecodingError (msg : String)
  | IOError (msg : String)
  deriving DecidableEq, Repr

/-- Modelled from the spec: the external packet encoder's `putInt32`
primitive (the repository's encoder implementation is outside this file's
source).  Writes a signed 32-bit integer as 4 big-endian two's-complement
bytes. -/
def putInt32 (i : Int) : List Nat :=
  let n : Nat := (i % 4294967296).toNat
  [n / 16777216 % 256, n / 65536 % 256, n / 256 % 256, n % 256]

/-- Modelled from the spec: the external packet decoder's `getInt32`
primitive.  Reads 4 big-endian bytes as a signed 32-bit two's-complement
integer; fails (insufficient data) when fewer than 4 bytes remain. -/
def getInt32 : List Nat → Option (Int × List Nat)
  | b0 :: b1 :: b2 :: b3 :: rest =>
      let n : Nat := b0 * 16777216 + b1 * 65536 + b2 * 256 + b3
      some (if n < 2147483648 then (n : Int) else (n : Int) - 4294967296, rest)
  | _ => none

/-- Modelled from the spec: the external encoder's `putString` primitive, a
length-prefixed string encoding (big-endian 16-bit length prefix followed
by the raw bytes). -/
def putString (s : List Nat) : List Nat :=
  (s.length / 256 % 256) :: (s.length % 256) :: s

/-- Modelled from the spec: the external decoder's `getString` primitive,
inverse of `putString`; fails when fewer bytes remain than the prefix
announces. -/
def getString : List Nat → Option (List Nat × List Nat)
  | b0 :: b1 :: rest =>
      let n := b0 * 256 + b1
      if n ≤ rest.length then some (rest.take n, rest.drop n) else none
  | _ => none

/-- The descriptor fields of a `broker`: node id, host and port
(`broker.go` lines 9-21; the socket handle and queues are modelled
separately as worker state). -/
structure broker where
  id : Int
  host : List Nat
  port : Int
  deriving DecidableEq, Repr

/-- `broker.encode` (`broker.go` lines 82-86): writes id, host, port in
that order. -/
def broker.encode (b : broker) : List Nat :=
  putInt32 b.id ++ putString b.host ++ putInt32 b.port

/-- `broker.decode` (`broker.go` lines 88-113): reads id, host, port in
that order and rejects a port above `math.MaxUint16` = 65535 with a
`DecodingError`.  The subsequent `connect()` call (a network side effect)
is outside the decoding claims and is not modelled here. -/
def broker.decode (bytes : List Nat) : Except BrokerError broker :=
  match getInt32 bytes with
  | none => .error (.DecodingError "insufficient data")
  | some (i, r1) =>
    match getString r1 with
    | none => .error (.DecodingError "insufficient data")
    | some (h, r2) =>
      match getInt32 r2 with
      | none => .error (.DecodingError "insufficient data")
      | some (p, _) =>
        if p > 65535 then .error (.DecodingError "Broker port > 65536")
        else .ok { id := i, host := h, port := p }

/-- Reading back 4 bytes written by `putInt32` recovers the integer, for
any integer in signed 32-bit range. -/
theorem getInt32_putInt32 (i : Int) (rest : List Nat)
    (h1 : -2147483648 ≤ i) (h2 : i < 2147483648) :
    getInt32 (putInt32 i ++ rest) = some (i, rest) := by
  simp only [putInt32, getInt32, List.cons_append, List.nil_append,
    Option.some.injEq, Prod.mk.injEq]
  constructor
  · split <;> omega
  · trivial

/-- Reading back bytes written by `putString` recovers the string, for any
byte string whose length fits the 16-bit prefix. -/
theorem getString_putString (s rest : List Nat) (h : s.length < 65536) :
    getString (putString s ++ rest) = some (s, rest) := by
  simp only [putString, getString, List.cons_append]
  have hn : s.length / 256 % 256 * 256 + s.length % 256 = s.length := by omega
  rw [hn]
  rw [if_pos (by simp)]
  simp

/-- `broker.decode` on a well-formed descriptor: parsing succeeds on the
three fields, and the result is a `DecodingError` exactly when the decoded
port exceeds 65535 (no lower bound is checked, so negative ports pass). -/
theorem decode_fields (i p : Int) (h extra : List Nat)
    (hi1 : -2147483648 ≤ i) (hi2 : i < 2147483648)
    (hh : h.length < 65536)
    (hp1 : -2147483648 ≤ p) (hp2 : p < 2147483648) :
    broker.decode (putInt32 i ++ putString h ++ putInt32 p ++ extra) =
      if p > 65535 then Except.error (BrokerError.DecodingError "Broker port > 65536")
      else Except.ok { id := i, host := h, port := p } := by
  simp only [broker.decode, List.append_assoc,
    getInt32_putInt32 i _ hi1 hi2, getString_putString h _ hh,
    getInt32_putInt32 p _ hp1 hp2]

/-- C7: `decodeDescriptor` fails with a `DecodingError` exactly when the
decoded port exceeds 65535 (given the three fields decode successfully);
port = 65535 succeeds, port = 65536 fails, and negative ports are not
rejected since only the upper bound is checked. -/
theorem decode_port_bound (i : Int) (h : List Nat) (p : Int) (extra : List Nat)
    (hi1 : -2147483648 ≤ i) (hi2 : i < 2147483648)
    (hh : h.length < 65536)
    (hp1 : -2147483648 ≤ p) (hp2 : p < 2147483648) :
    (p > 65535 →
      broker.decode (putInt32 i ++ putString h ++ putInt32 p ++ extra) =
        Except.error (BrokerError.DecodingError "Broker port > 65536")) ∧
    (p ≤ 65535 →
      broker.decode (putInt32 i ++ putString h ++ putInt32 p ++ extra) =
        Except.ok { id := i, host := h, port := p }) := by
  rw [decode_fields i p h extra hi1 hi2 hh hp1 hp2]
  constructor
  · intro hgt; rw [if_pos hgt]
  · intro hle; rw [if_neg (by omega)]

/-- Witness for C7 at concrete inputs: port 65535 succeeds, port 65536
fails with the `DecodingError`, and the negative port −1 is accepted. -/
theorem decode_port_bound_witness :
    (broker.decode (putInt32 7 ++ putString [104] ++ putInt32 65536 ++ []) =
      Except.error (BrokerError.DecodingError "Broker port > 65536")) ∧
    (broker.decode (putInt32 7 ++ putString [104] ++ putInt32 65535 ++ []) =
      Except.ok { id := 7, host := [104], port := 65535 }) ∧
    (broker.decode (putInt32 7 ++ putString [104] ++ putInt32 (-1) ++ []) =
      Except.ok { id := 7, host := [104], port := -1 }) :=
  ⟨(decode_port_bound 7 [104] 65536 [] (by decide) (by decide) (by decide)
      (by decide) (by decide)).1 (by decide),
   (decode_port_bound 7 [104] 65535 [] (by decide) (by decide) (by decide)
      (by decide) (by decide)).2 (by decide),
   (decode_port_bound 7 [104] (-1) [] (by decide) (by decide) (by decide)
      (by decide) (by decide)).2 (by decide)⟩

/-- C8: decoding the bytes produced by `broker.encode` reproduces the
broker's id, host and port exactly, for any broker whose fields are in
range and whose port decoding accepts. -/
theorem decode_encode_roundtrip (b : broker)
    (hi1 : -2147483648 ≤ b.id) (hi2 : b.id < 2147483648)
    (hh : b.host.length < 65536)
    (hp1 : -2147483648 ≤ b.port) (hp2 : b.port ≤ 65535) :
    broker.decode (broker.encode b) = Except.ok b := by
  have h := decode_fields b.id b.port b.host [] hi1 hi2 hh hp1 (by omega)
  rw [List.append_nil] at h
  rw [broker.encode, h, if_neg (by omega)]

/-- Witness for C8 at a concrete broker. -/
theorem decode_encode_roundtrip_witness :
    broker.decode (broker.encode { id := 3, host := [107, 97], port := 9092 }) =
      Except.ok { id := 3, host := [107, 97], port := 9092 } :=
  decode_encode_roundtrip { id := 3, host := [107, 97], port := 9092 }
    (by decide) (by decide) (by decide) (by decide) (by decide)

/-- State of one Go channel used as a one-shot handoff: the values sent on
it so far (in order) and whether it has been closed. -/
structure handoff (α : Type) where
  sent : List α
  closed : Bool
  deriving DecidableEq, Repr

/-- `responsePromise` (`broker.go` lines 23-27) with the observable state
of its two handoff channels. -/
structure promiseState where
  correlation_id : Int
  packets : handoff (List Nat)
  errors : handoff BrokerError
  deriving DecidableEq, Repr

/-- Connection-wide observable state: whether the two pipeline queues and
the socket are open, and how many times the socket has been closed. -/
structure connState where
  requestsOpen : Bool
  responsesOpen : Bool
  connOpen : Bool
  connCloseCount : Nat
  deriving DecidableEq, Repr

/-- `forceDisconnect` (`broker.go` lines 71-80): deliver `e` on the
serviced promise's error handoff, close that promise's two handoffs, close
both pipeline queues, close the socket. -/
def forceDisconnect (s : connState) (p : promiseState) (e : BrokerError) :
    connState × promiseState :=
  ({ requestsOpen := false, responsesOpen := false,
     connOpen := false, connCloseCount := s.connCloseCount + 1 },
   { correlation_id := p.correlation_id,
     packets := { sent := p.packets.sent, closed := true },
     errors := { sent := p.errors.sent ++ [e], closed := true } })

/-- C2: fatal teardown delivers the error value exactly once on the
serviced promise's error handoff (exactly one value is appended, and
nothing on the payload handoff), closes both of that promise's handoffs,
closes both pipeline queues, and closes the socket; with both queues and
the socket closed the connection accepts no further work. -/
theorem forceDisconnect_effects (s : connState) (p : promiseState) (e : BrokerError) :
    ((forceDisconnect s p e).2.errors.sent = p.errors.sent ++ [e]) ∧
    ((forceDisconnect s p e).2.packets.sent = p.packets.sent) ∧
    ((forceDisconnect s p e).2.errors.closed = true) ∧
    ((forceDisconnect s p e).2.packets.closed = true) ∧
    ((forceDisconnect s p e).1.requestsOpen = false) ∧
    ((forceDisconnect s p e).1.responsesOpen = false) ∧
    ((forceDisconnect s p e).1.connOpen = false) ∧
    ((forceDisconnect s p e).1.connCloseCount = s.connCloseCount + 1) := by
  simp [forceDisconnect]

/-- Outcome of one Receiver Worker iteration. -/
inductive rcvOutcome where
  | headerReadFailed
  | badLength (length : Int)
  | corrMismatch (wire : Int)
  | bodyReadFailed
  | delivered (body : List Nat)
  deriving DecidableEq, Repr

/-- `io.ReadFull`: read exactly `n` bytes from the stream, failing when
fewer remain. -/
def readFull (n : Nat) (stream : List Nat) : Option (List Nat × List Nat) :=
  if n ≤ stream.length then some (stream.take n, stream.drop n) else none

/-- Result of one Receiver Worker iteration: connection state, serviced
promise state, outcome, and the unread remainder of the inbound stream. -/
structure rcvEffects where
  conn : connState
  promise : promiseState
  outcome : rcvOutcome
  rest : List Nat
  deriving DecidableEq, Repr

/-- One iteration of `rcvResponseLoop` (`broker.go` lines 132-164) on the
promise taken from the response queue: read the 8-byte header, decode the
frame length and correlation id, validate `4 < length ≤ 2 * 65535`, check
the wire correlation id against the promise's, read `length - 4` body
bytes, deliver the body on the promise's payload handoff and close both
handoffs.  Any failure calls `forceDisconnect`.  (The two `getInt32` calls
on the 8-byte header cannot fail; those branches are unreachable.) -/
def rcvIteration (s : connState) (p : promiseState) (stream : List Nat) : rcvEffects :=
  match readFull 8 stream with
  | none =>
      let t := forceDisconnect s p (.IOError "read")
      ⟨t.1, t.2, .headerReadFailed, stream⟩
  | some (header, r1) =>
    match getInt32 header with
    | none => ⟨s, p, .headerReadFailed, stream⟩
    | some (length, h2) =>
      if length ≤ 4 ∨ 2 * 65535 < length then
        let t := forceDisconnect s p (.DecodingError "")
        ⟨t.1, t.2, .badLength length, r1⟩
      else
        match getInt32 h2 with
        | none => ⟨s, p, .headerReadFailed, stream⟩
        | some (corr, _) =>
          if p.correlation_id ≠ corr then
            let t := forceDisconnect s p (.DecodingError "")
            ⟨t.1, t.2, .corrMismatch corr, r1⟩
          else
            match readFull (length - 4).toNat r1 with
            | none =>
                let t := forceDisconnect s p (.IOError "read")
                ⟨t.1, t.2, .bodyReadFailed, r1⟩
            | some (body, r2) =>
                ⟨s,
                 { correlation_id := p.correlation_id,
                   packets := { sent := p.packets.sent ++ [body], closed := true },
                   errors := { sent := p.errors.sent, closed := true } },
                 .delivered body, r2⟩

/-- `readFull` on a stream that starts with exactly `n` bytes. -/
theorem readFull_exact (n : Nat) (xs t : List Nat) (h : xs.length = n) :
    readFull n (xs ++ t) = some (xs, t) := by
  subst h
  simp [readFull, List.take_left, List.drop_left]

/-- `getInt32` on exactly the 4 bytes of `putInt32`. -/
theorem getInt32_putInt32_nil (i : Int)
    (h1 : -2147483648 ≤ i) (h2 : i < 2147483648) :
    getInt32 (putInt32 i) = some (i, []) := by
  have := getInt32_putInt32 i [] h1 h2
  simpa using this

/-- Unfolding of one Receiver Worker iteration on a stream whose first 8
bytes encode a frame length and a correlation id. -/
theorem rcvIteration_eq (s : connState) (p : promiseState)
    (len corr : Int) (rest : List Nat)
    (hl1 : -2147483648 ≤ len) (hl2 : len < 2147483648)
    (hc1 : -2147483648 ≤ corr) (hc2 : corr < 2147483648) :
    rcvIteration s p (putInt32 len ++ (putInt32 corr ++ rest)) =
      if len ≤ 4 ∨ 2 * 65535 < len then
        ⟨(forceDisconnect s p (.DecodingError "")).1,
         (forceDisconnect s p (.DecodingError "")).2, .badLength len, rest⟩
      else if p.correlation_id ≠ corr then
        ⟨(forceDisconnect s p (.DecodingError "")).1,
         (forceDisconnect s p (.DecodingError "")).2, .corrMismatch corr, rest⟩
      else
        match readFull (len - 4).toNat rest with
        | none =>
            ⟨(forceDisconnect s p (.IOError "read")).1,
             (forceDisconnect s p (.IOError "read")).2, .bodyReadFailed, rest⟩
        | some (body, r2) =>
            ⟨s, { correlation_id := p.correlation_id,
                  packets := { sent := p.packets.sent ++ [body], closed := true },
                  errors := { sent := p.errors.sent, closed := true } },
              .delivered body, r2⟩ := by
  have heq : putInt32 len ++ (putInt32 corr ++ rest)
      = (putInt32 len ++ putInt32 corr) ++ rest := by simp
  rw [heq]
  simp only [rcvIteration,
    readFull_exact 8 (putInt32 len ++ putInt32 corr) rest (by simp [putInt32]),
    getInt32_putInt32 len (putInt32 corr) hl1 hl2,
    getInt32_putInt32_nil corr hc1 hc2]

/-- C4: on a frame header carrying length `len`, the Receiver Worker
triggers a `DecodingError` teardown exactly when `len ≤ 4` or
`len > 131070`; when `len` is accepted, the correlation id matches and the
stream holds enough bytes, the worker reads and delivers exactly `len − 4`
body bytes. -/
theorem rcv_length_validation (s : connState) (p : promiseState)
    (len corr : Int) (rest : List Nat)
    (hl1 : -2147483648 ≤ len) (hl2 : len < 2147483648)
    (hc1 : -2147483648 ≤ corr) (hc2 : corr < 2147483648) :
    ((len ≤ 4 ∨ 131070 < len) →
      (rcvIteration s p (putInt32 len ++ (putInt32 corr ++ rest))).outcome
          = .badLength len ∧
      (rcvIteration s p (putInt32 len ++ (putInt32 corr ++ rest))).promise.errors.sent
          = p.errors.sent ++ [.DecodingError ""] ∧
      (rcvIteration s p (putInt32 len ++ (putInt32 corr ++ rest))).conn.connCloseCount
          = s.connCloseCount + 1) ∧
    ((rcvIteration s p (putInt32 len ++ (putInt32 corr ++ rest))).outcome
          = .badLength len → (len ≤ 4 ∨ 131070 < len)) ∧
    (4 < len → len ≤ 131070 → corr = p.correlation_id →
      (len - 4).toNat ≤ rest.length →
      (rcvIteration s p (putInt32 len ++ (putInt32 corr ++ rest))).outcome
          = .delivered (rest.take (len - 4).toNat) ∧
      (rest.take (len - 4).toNat).length = (len - 4).toNat ∧
      (rcvIteration s p (putInt32 len ++ (putInt32 corr ++ rest))).rest
          = rest.drop (len - 4).toNat) := by
  rw [rcvIteration_eq s p len corr rest hl1 hl2 hc1 hc2]
  refine ⟨?_, ?_, ?_⟩
  · intro hbad
    rw [if_pos (by omega)]
    exact ⟨rfl, by simp [forceDisconnect], by simp [forceDisconnect]⟩
  · intro hout
    by_contra hgood
    rw [if_neg (by omega)] at hout
    split at hout
    · exact absurd hout (by simp)
    · split at hout
      · exact absurd hout (by simp)
      · exact absurd hout (by simp)
  · intro h4 h131070 hcorr hrest
    rw [if_neg (by omega), if_neg (fun hne => hne hcorr.symm)]
    rw [readFull, if_pos hrest]
    refine ⟨rfl, ?_, rfl⟩
    simp only [List.length_take]
    omega

/-- Witness for C4 at the claim's boundary inputs: length 4 and 131071 are
rejected; length 5 (with 1 body byte) and length 131070 (with 131066 body
bytes) are accepted and deliver exactly the body. -/
theorem rcv_length_validation_witness :
    ((rcvIteration ⟨true, true, true, 0⟩ ⟨9, ⟨[], false⟩, ⟨[], false⟩⟩
        (putInt32 4 ++ (putInt32 9 ++ []))).outcome = .badLength 4) ∧
    ((rcvIteration ⟨true, true, true, 0⟩ ⟨9, ⟨[], false⟩, ⟨[], false⟩⟩
        (putInt32 131071 ++ (putInt32 9 ++ []))).outcome = .badLength 131071) ∧
    ((rcvIteration ⟨true, true, true, 0⟩ ⟨9, ⟨[], false⟩, ⟨[], false⟩⟩
        (putInt32 5 ++ (putInt32 9 ++ [42]))).outcome = .delivered [42]) ∧
    ((rcvIteration ⟨true, true, true, 0⟩ ⟨9, ⟨[], false⟩, ⟨[], false⟩⟩
        (putInt32 131070 ++ (putInt32 9 ++ List.replicate 131066 7))).outcome
        = .delivered (List.replicate 131066 7)) := by
  refine ⟨?_, ?_, ?_, ?_⟩
  · exact ((rcv_length_validation ⟨true, true, true, 0⟩ ⟨9, ⟨[], false⟩, ⟨[], false⟩⟩
      4 9 [] (by decide) (by decide) (by decide) (by decide)).1 (by decide)).1
  · exact ((rcv_length_validation ⟨true, true, true, 0⟩ ⟨9, ⟨[], false⟩, ⟨[], false⟩⟩
      131071 9 [] (by decide) (by decide) (by decide) (by decide)).1 (by decide)).1
  · have h := ((rcv_length_validation ⟨true, true, true, 0⟩ ⟨9, ⟨[], false⟩, ⟨[], false⟩⟩
      5 9 [42] (by decide) (by decide) (by decide) (by decide)).2.2
      (by decide) (by decide) rfl (by decide)).1
    simpa using h
  · have h := ((rcv_length_validation ⟨true, true, true, 0⟩ ⟨9, ⟨[], false⟩, ⟨[], false⟩⟩
      131070 9 (List.replicate 131066 7) (by decide) (by decide) (by decide)
      (by decide)).2.2 (by decide) (by decide) rfl
      (by rw [List.length_replicate]; decide)).1
    rw [h, List.take_replicate]
    congr 1

/-- C3: on a frame whose header passes length validation, a wire
correlation id differing from the pending promise's id triggers fatal
teardown: a `DecodingError` is delivered exactly once on the promise's
error handoff, both handoffs are closed, and the socket is closed exactly
once; when the ids are equal no teardown occurs at this step (and with
enough body bytes the frame is delivered with the connection state
untouched). -/
theorem rcv_corr_check (s : connState) (p : promiseState)
    (len corr : Int) (rest : List Nat)
    (hl1 : -2147483648 ≤ len) (hl2 : len < 2147483648)
    (hc1 : -2147483648 ≤ corr) (hc2 : corr < 2147483648)
    (h4 : 4 < len) (hceil : len ≤ 131070) :
    (corr ≠ p.correlation_id →
      (rcvIteration s p (putInt32 len ++ (putInt32 corr ++ rest))).outcome
          = .corrMismatch corr ∧
      (rcvIteration s p (putInt32 len ++ (putInt32 corr ++ rest))).promise.errors.sent
          = p.errors.sent ++ [.DecodingError ""] ∧
      (rcvIteration s p (putInt32 len ++ (putInt32 corr ++ rest))).promise.errors.closed
          = true ∧
      (rcvIteration s p (putInt32 len ++ (putInt32 corr ++ rest))).promise.packets.closed
          = true ∧
      (rcvIteration s p (putInt32 len ++ (putInt32 corr ++ rest))).promise.packets.sent
          = p.packets.sent ∧
      (rcvIteration s p (putInt32 len ++ (putInt32 corr ++ rest))).conn.connCloseCount
          = s.connCloseCount + 1 ∧
      (rcvIteration s p (putInt32 len ++ (putInt32 corr ++ rest))).conn.connOpen
          = false) ∧
    (corr = p.correlation_id →
      (rcvIteration s p (putInt32 len ++ (putInt32 corr ++ rest))).outcome
          ≠ .corrMismatch corr ∧
      ((len - 4).toNat ≤ rest.length →
        (rcvIteration s p (putInt32 len ++ (putInt32 corr ++ rest))).conn = s ∧
        (rcvIteration s p (putInt32 len ++ (putInt32 corr ++ rest))).outcome
            = .delivered (rest.take (len - 4).toNat))) := by
  rw [rcvIteration_eq s p len corr rest hl1 hl2 hc1 hc2, if_neg (by omega)]
  constructor
  · intro hne
    rw [if_pos hne.symm]
    exact ⟨rfl, by simp [forceDisconnect], by simp [forceDisconnect],
      by simp [forceDisconnect], by simp [forceDisconnect],
      by simp [forceDisconnect], by simp [forceDisconnect]⟩
  · intro hcorr
    rw [if_neg (fun hne => hne hcorr.symm)]
    constructor
    · split
      · simp
      · simp
    · intro hb
      rw [readFull, if_pos hb]
      exact ⟨rfl, rfl⟩

/-- Witness for C3 at a concrete mismatching frame (promise expects id 8,
wire carries id 9) and a concrete matching frame. -/
theorem rcv_corr_check_witness :
    ((rcvIteration ⟨true, true, true, 0⟩ ⟨8, ⟨[], false⟩, ⟨[], false⟩⟩
        (putInt32 5 ++ (putInt32 9 ++ [42]))).outcome = .corrMismatch 9 ∧
      (rcvIteration ⟨true, true, true, 0⟩ ⟨8, ⟨[], false⟩, ⟨[], false⟩⟩
        (putInt32 5 ++ (putInt32 9 ++ [42]))).promise.errors.sent
          = [] ++ [.DecodingError ""] ∧
      (rcvIteration ⟨true, true, true, 0⟩ ⟨8, ⟨[], false⟩, ⟨[], false⟩⟩
        (putInt32 5 ++ (putInt32 9 ++ [42]))).conn.connCloseCount = 0 + 1) ∧
    (rcvIteration ⟨true, true, true, 0⟩ ⟨9, ⟨[], false⟩, ⟨[], false⟩⟩
        (putInt32 5 ++ (putInt32 9 ++ [42]))).conn = ⟨true, true, true, 0⟩ := by
  constructor
  · have h := (rcv_corr_check ⟨true, true, true, 0⟩ ⟨8, ⟨[], false⟩, ⟨[], false⟩⟩
      5 9 [42] (by decide) (by decide) (by decide) (by decide) (by decide)
      (by decide)).1 (by decide)
    exact ⟨h.1, h.2.1, h.2.2.2.2.2.1⟩
  · exact (((rcv_corr_check ⟨true, true, true, 0⟩ ⟨9, ⟨[], false⟩, ⟨[], false⟩⟩
      5 9 [42] (by decide) (by decide) (by decide) (by decide) (by decide)
      (by decide)).2 rfl).2 (by decide)).1

/-- Outcome of one Sender Worker iteration. -/
inductive sendOutcome where
  | writeFailed
  | handedToResponses
  | closedHandoffs
  deriving DecidableEq, Repr

/-- Result of one Sender Worker iteration: connection and promise state,
the buffers written to the socket in order, and the correlation ids of the
promises handed to the response queue in order. -/
structure sendEffects where
  conn : connState
  promise : promiseState
  written : List (List Nat)
  handedToResponses : List Int
  outcome : sendOutcome
  deriving DecidableEq, Repr

/-- One iteration of `sendRequestLoop` (`broker.go` lines 115-130) on the
envelope taken from the request queue: read the outbound buffer `buf` from
the promise's payload handoff, write it to the socket (`writeOk` models
whether `conn.Write` succeeds), then hand the promise to the response
queue when a reply is expected, or close both of its handoffs with no
value when not.  A failed write calls `forceDisconnect`. -/
def sendIteration (s : connState) (p : promiseState) (expectResponse : Bool)
    (buf : List Nat) (writeOk : Bool) : sendEffects :=
  if writeOk then
    if expectResponse then
      ⟨s, p, [buf], [p.correlation_id], .handedToResponses⟩
    else
      ⟨s, { correlation_id := p.correlation_id,
            packets := { sent := p.packets.sent, closed := true },
            errors := { sent := p.errors.sent, closed := true } },
        [buf], [], .closedHandoffs⟩
  else
    let t := forceDisconnect s p (.IOError "write")
    ⟨t.1, t.2, [], [], .writeFailed⟩

/-- C6: after a successful socket write of a no-reply envelope's bytes, the
Sender Worker writes the buffer exactly once, hands nothing to the response
queue, closes both of the promise's handoffs without delivering any value,
and leaves the connection state untouched. -/
theorem send_noreply (s : connState) (p : promiseState) (buf : List Nat) :
    (sendIteration s p false buf true).written = [buf] ∧
    (sendIteration s p false buf true).handedToResponses = [] ∧
    (sendIteration s p false buf true).promise.packets.closed = true ∧
    (sendIteration s p false buf true).promise.errors.closed = true ∧
    (sendIteration s p false buf true).promise.packets.sent = p.packets.sent ∧
    (sendIteration s p false buf true).promise.errors.sent = p.errors.sent ∧
    (sendIteration s p false buf true).conn = s := by
  simp [sendIteration]

/-- One envelope pushed onto the request queue by `sendRequest`
(`requestToSend`, `broker.go` lines 29-33: the promise plus the
expect-response flag). -/
structure envelopeSent where
  correlation_id : Int
  expectResponse : Bool
  deriving DecidableEq, Repr

/-- Result of one `sendRequest` call: the promise (or `none`) and error
returned to the caller, the connection's correlation counter after the
call, and the envelopes pushed onto the request queue. -/
structure sendRequestEffects where
  promise : Option promiseState
  err : Option BrokerError
  correlation_id : Int
  enqueuedRequests : List envelopeSent
  deriving DecidableEq, Repr

/-- Go `int32` wraparound for the correlation counter increment. -/
def int32wrap (i : Int) : Int := (i + 2147483648) % 4294967296 - 2147483648

/-- `sendRequest` (`broker.go` lines 167-180): stamp the request with the
current correlation counter, serialize it (`build` models the external
`buildBytes` codec applied to the stamped request); on failure return
`nil` and the error with nothing enqueued and the counter untouched; on
success push the envelope onto the request queue, hand the serialized
bytes to the new promise's payload handoff (its first use), increment the
counter with 32-bit wraparound, and return the promise. -/
def sendRequest (correlation_id : Int) (expectResponse : Bool)
    (build : Int → Except BrokerError (List Nat)) : sendRequestEffects :=
  match build correlation_id with
  | .error e => ⟨none, some e, correlation_id, []⟩
  | .ok packet =>
      ⟨some { correlation_id := correlation_id,
              packets := { sent := [packet], closed := false },
              errors := { sent := [], closed := false } },
       none, int32wrap (correlation_id + 1),
       [{ correlation_id := correlation_id, expectResponse := expectResponse }]⟩

/-- Correlation ids assigned by `n` consecutive successful `sendRequest`
calls executed sequentially starting from counter `c` (the sequence stops
early if a call fails). -/
def sendRequestIds (build : Int → Except BrokerError (List Nat)) : Int → Nat → List Int
  | _, 0 => []
  | c, n + 1 =>
      match (sendRequest c true build).promise with
      | some p => p.correlation_id :: sendRequestIds build (sendRequest c true build).correlation_id n
      | none => []

/-- Unfolding of a successful `sendRequest` call. -/
theorem sendRequest_ok (c : Int) (expect : Bool)
    (build : Int → Except BrokerError (List Nat)) (packet : List Nat)
    (h : build c = Except.ok packet) :
    sendRequest c expect build =
      ⟨some { correlation_id := c,
              packets := { sent := [packet], closed := false },
              errors := { sent := [], closed := false } },
       none, int32wrap (c + 1),
       [{ correlation_id := c, expectResponse := expect }]⟩ := by
  simp [sendRequest, h]

/-- A run of successful `sendRequest` calls that stays below the signed
32-bit ceiling assigns the consecutive counter values as correlation
ids. -/
theorem sendRequestIds_eq (build : Int → Except BrokerError (List Nat))
    (hb : ∀ i, ∃ pk, build i = Except.ok pk) :
    ∀ (n : Nat) (c : Int), -2147483648 ≤ c → c + n ≤ 2147483647 →
      sendRequestIds build c n
        = (List.range n).map (fun k : Nat => c + (k : Int)) := by
  intro n
  induction n with
  | zero => intro c _ _; simp [sendRequestIds]
  | succ n ih =>
    intro c hc1 hc2
    obtain ⟨pk, hpk⟩ := hb c
    simp only [sendRequestIds, sendRequest_ok c true build pk hpk]
    rw [show int32wrap (c + 1) = c + 1 by unfold int32wrap; omega]
    rw [ih (c + 1) (by omega) (by push_cast at hc2 ⊢; omega)]
    rw [List.range_succ_eq_map, List.map_cons, List.map_map]
    congr 1
    · simp
    · apply List.map_congr_left
      intro a _
      simp [Function.comp]
      ring

/-- C9: each successful `sendRequest` assigns the current counter value as
both the enqueued request's and the new promise's correlation id and then
advances the counter by exactly one (32-bit wraparound); hence a sequence
of `n` sequential successful calls that stays below the signed 32-bit
ceiling assigns the strictly increasing, pairwise distinct ids
`c, c+1, …, c+n−1`. -/
theorem sendRequest_correlation_ids (build : Int → Except BrokerError (List Nat))
    (c : Int) (n : Nat)
    (hb : ∀ i, ∃ pk, build i = Except.ok pk)
    (hc1 : -2147483648 ≤ c) (hc2 : c + n ≤ 2147483647) :
    (∀ (c2 : Int) (pk : List Nat), build c2 = Except.ok pk →
      (sendRequest c2 true build).promise
          = some { correlation_id := c2,
                   packets := { sent := [pk], closed := false },
                   errors := { sent := [], closed := false } } ∧
      (sendRequest c2 true build).enqueuedRequests
          = [{ correlation_id := c2, expectResponse := true }] ∧
      (sendRequest c2 true build).correlation_id = int32wrap (c2 + 1)) ∧
    sendRequestIds build c n = (List.range n).map (fun k : Nat => c + (k : Int)) ∧
    (sendRequestIds build c n).Pairwise (· < ·) ∧
    (sendRequestIds build c n).Nodup := by
  have hids := sendRequestIds_eq build hb n c hc1 hc2
  have hpair : (sendRequestIds build c n).Pairwise (· < ·) := by
    rw [hids]
    exact (List.pairwise_lt_range n).map _ (fun a b hab => by omega)
  refine ⟨fun c2 pk hpk => ?_, hids, hpair, hpair.imp ne_of_lt⟩
  rw [sendRequest_ok c2 true build pk hpk]
  exact ⟨rfl, rfl, rfl⟩

/-- Witness for C9: three successful calls starting from counter 0 assign
ids 0, 1, 2, strictly increasing. -/
theorem sendRequest_correlation_ids_witness :
    sendRequestIds (fun i => Except.ok (putInt32 i)) 0 3
        = (List.range 3).map (fun k : Nat => 0 + (k : Int)) ∧
    (sendRequestIds (fun i => Except.ok (putInt32 i)) 0 3).Pairwise (· < ·) :=
  ⟨(sendRequest_correlation_ids _ 0 3 (fun i => ⟨putInt32 i, rfl⟩)
      (by norm_num) (by norm_num)).2.1,
   (sendRequest_correlation_ids _ 0 3 (fun i => ⟨putInt32 i, rfl⟩)
      (by norm_num) (by norm_num)).2.2.1⟩

/-- C10: when serialization fails, `sendRequest` returns a nil promise with
the serialization error, leaves the correlation counter untouched and
enqueues nothing on the pipeline queues. -/
theorem sendRequest_serialization_failure (c : Int) (expect : Bool)
    (build : Int → Except BrokerError (List Nat)) (e : BrokerError)
    (h : build c = Except.error e) :
    (sendRequest c expect build).promise = none ∧
    (sendRequest c expect build).err = some e ∧
    (sendRequest c expect build).correlation_id = c ∧
    (sendRequest c expect build).enqueuedRequests = [] := by
  simp [sendRequest, h]

/-- Witness for C10 at a concrete failing serializer. -/
theorem sendRequest_serialization_failure_witness :
    (sendRequest 5 true (fun _ => Except.error (.IOError "ser"))).promise = none ∧
    (sendRequest 5 true (fun _ => Except.error (.IOError "ser"))).err
        = some (.IOError "ser") ∧
    (sendRequest 5 true (fun _ => Except.error (.IOError "ser"))).correlation_id = 5 ∧
    (sendRequest 5 true (fun _ => Except.error (.IOError "ser"))).enqueuedRequests = [] :=
  sendRequest_serialization_failure 5 true _ (.IOError "ser") rfl

/-- What arrives first on the promise while `sendAndReceive` waits: a value
from the payload handoff (`none` models the nil slice a closed channel
yields) or a value from the error handoff (`none` models the nil error a
closed channel yields). -/
inductive promiseEvent where
  | packet (buf : Option (List Nat))
  | failure (e : Option BrokerError)
  deriving DecidableEq, Repr

/-- `sendAndReceive` (`broker.go` lines 184-202): call `sendRequest`
(`sendErr` is its error result) and wait for the promise.  A non-nil
payload is handed to the external response decoder (`decodeRes` models
`res.decode`) and the call reports `gotReply = true` with the decoder's
error; a nil payload (closed handoff) or an error-handoff value reports
`gotReply = false` with that error. -/
def sendAndReceive (sendErr : Option BrokerError) (ev : promiseEvent)
    (decodeRes : List Nat → Option BrokerError) : Bool × Option BrokerError :=
  match sendErr with
  | some e => (false, some e)
  | none =>
    match ev with
    | .packet (some buf) => (true, decodeRes buf)
    | .packet none => (false, none)
    | .failure e => (false, e)

/-- C5: after a successful `sendRequest`, a delivered non-empty payload
yields `gotReply = true` together with whatever error the external decoder
produced (true even when decoding fails); a closed payload handoff (the
no-reply case) yields `gotReply = false` with no error; a value on the
error handoff yields `gotReply = false` with that error. -/
theorem sendAndReceive_result (d : List Nat → Option BrokerError) :
    (∀ buf : List Nat, buf ≠ [] →
      sendAndReceive none (.packet (some buf)) d = (true, d buf)) ∧
    sendAndReceive none (.packet none) d = (false, none) ∧
    (∀ e : Option BrokerError, sendAndReceive none (.failure e) d = (false, e)) :=
  ⟨fun _ _ => rfl, rfl, fun _ => rfl⟩

/-- Witness for C5: a one-byte payload with a failing decoder still reports
`gotReply = true` alongside the decoder's error. -/
theorem sendAndReceive_result_witness :
    sendAndReceive none (.packet (some [1]))
        (fun _ => some (.DecodingError "bad"))
      = (true, some (.DecodingError "bad")) :=
  (sendAndReceive_result (fun _ => some (.DecodingError "bad"))).1 [1] (by simp)

/-- One request as accepted from the request queue, for the trace-level
worker-loop models: the promise's correlation id, the serialized bytes
carried on its payload handoff, and the expect-response flag. -/
structure acceptedRequest where
  correlation_id : Int
  bytes : List Nat
  expectResponse : Bool
  deriving DecidableEq, Repr

/-- `sendRequestLoop` (`broker.go` lines 115-130) over the sequence of
envelopes accepted from the request queue, on the path where every socket
write succeeds: per envelope, read the outbound bytes from the promise's
payload handoff and write them to the socket, then hand the promise to the
response queue when a reply is expected (or close its handoffs when not).
Returns the socket write trace and the response-queue handoff trace, each
in order. -/
def sendRequestLoop : List acceptedRequest → List (List Nat) × List acceptedRequest
  | [] => ([], [])
  | r :: rest =>
      let t := sendRequestLoop rest
      (r.bytes :: t.1, if r.expectResponse then r :: t.2 else t.2)

/-- The fresh promise `sendRequest` creates for an accepted request, as the
Receiver Worker sees it: the outbound bytes were its payload handoff's
first (already consumed) use. -/
def promiseOf (r : acceptedRequest) : promiseState :=
  ⟨r.correlation_id, ⟨[r.bytes], false⟩, ⟨[], false⟩⟩

/-- An inbound wire frame for a reply body:
`[int32 length][int32 correlationId][body]` with `length = body.length + 4`. -/
def encodeFrame (corr : Int) (body : List Nat) : List Nat :=
  putInt32 ((body.length : Int) + 4) ++ (putInt32 corr ++ body)

/-- `rcvResponseLoop` (`broker.go` lines 132-164) over the promises
accepted from the response queue in order, consuming the inbound byte
stream one frame per promise; returns the final connection state, the
delivery trace (serviced promise's correlation id paired with the body
delivered on its payload handoff, in order), and the outcome of the first
fatal iteration if any. -/
def rcvResponseLoop : connState → List promiseState → List Nat →
    connState × List (Int × List Nat) × Option rcvOutcome
  | s, [], _ => (s, [], none)
  | s, p :: ps, stream =>
    let r := rcvIteration s p stream
    match r.outcome with
    | .delivered body =>
        let t := rcvResponseLoop r.conn ps r.rest
        (t.1, (p.correlation_id, body) :: t.2.1, t.2.2)
    | out => (r.conn, [], some out)

/-- The Sender Worker's socket write trace is the accepted requests' bytes
in acceptance order. -/
theorem sendRequestLoop_writes (reqs : List acceptedRequest) :
    (sendRequestLoop reqs).1 = reqs.map (fun r => r.bytes) := by
  induction reqs with
  | nil => rfl
  | cons r rest ih => simp [sendRequestLoop, ih]

/-- The Sender Worker hands to the response queue exactly the accepted
requests that expect a reply, in acceptance order. -/
theorem sendRequestLoop_responses (reqs : List acceptedRequest) :
    (sendRequestLoop reqs).2 = reqs.filter (fun r => r.expectResponse) := by
  induction reqs with
  | nil => rfl
  | cons r rest ih =>
    by_cases h : r.expectResponse <;> simp [sendRequestLoop, ih, h, List.filter]

/-- One Receiver Worker iteration on a well-formed frame addressed to the
pending promise delivers exactly the frame's body and consumes exactly the
frame. -/
theorem rcvIteration_frame (s : connState) (p : promiseState)
    (body tail : List Nat)
    (hc1 : -2147483648 ≤ p.correlation_id) (hc2 : p.correlation_id < 2147483648)
    (hb1 : 1 ≤ body.length) (hb2 : body.length ≤ 131066) :
    rcvIteration s p (encodeFrame p.correlation_id body ++ tail) =
      ⟨s, { correlation_id := p.correlation_id,
            packets := { sent := p.packets.sent ++ [body], closed := true },
            errors := { sent := p.errors.sent, closed := true } },
        .delivered body, tail⟩ := by
  have heq : encodeFrame p.correlation_id body ++ tail
      = putInt32 ((body.length : Int) + 4)
          ++ (putInt32 p.correlation_id ++ (body ++ tail)) := by
    simp [encodeFrame]
  rw [heq, rcvIteration_eq s p ((body.length : Int) + 4) p.correlation_id
    (body ++ tail) (by omega) (by omega) hc1 hc2]
  rw [if_neg (by push_cast; omega), if_neg (fun hne => hne rfl)]
  rw [show (((body.length : Int) + 4) - 4).toNat = body.length by omega]
  rw [readFull_exact body.length body tail rfl]

/-- The Receiver Worker, fed one well-formed in-order frame per pending
promise, delivers each body to the promise in that position: the delivery
trace is the FIFO pairing of pending correlation ids with the reply
bodies, with no teardown and the connection state untouched. -/
theorem rcvResponseLoop_inorder (s : connState) (ps : List promiseState)
    (bodies : List (List Nat))
    (hlen : ps.length = bodies.length)
    (hcorr : ∀ p ∈ ps, -2147483648 ≤ p.correlation_id ∧
        p.correlation_id < 2147483648)
    (hbody : ∀ b ∈ bodies, 1 ≤ b.length ∧ b.length ≤ 131066) :
    rcvResponseLoop s ps
        ((ps.zip bodies).flatMap (fun q => encodeFrame q.1.correlation_id q.2))
      = (s, (ps.map (fun p => p.correlation_id)).zip bodies, none) := by
  induction ps generalizing s bodies with
  | nil => simp [rcvResponseLoop]
  | cons p ps ih =>
    cases bodies with
    | nil => exact absurd hlen (by simp)
    | cons b bs =>
      have hp := hcorr p (by simp)
      have hb := hbody b (by simp)
      have hframe := rcvIteration_frame s p b
        ((ps.zip bs).flatMap (fun q => encodeFrame q.1.correlation_id q.2))
        hp.1 hp.2 hb.1 hb.2
      simp only [List.zip_cons_cons, List.flatMap_cons, List.map_cons]
      simp only [rcvResponseLoop, hframe]
      rw [ih s bs (by simpa using hlen)
        (fun q hq => hcorr q (by simp [hq]))
        (fun q hq => hbody q (by simp [hq]))]

/-- C1: for every sequence of requests accepted into the pipeline, the
Sender Worker writes their serialized bytes to the socket in exactly
request-queue acceptance order and hands the reply-expecting promises to
the response queue in that same order; the Receiver Worker, fed one
well-formed in-order reply frame per pending promise, delivers each reply
to the pending promise in strict FIFO order of request acceptance. -/
theorem pipeline_fifo (s : connState) (reqs : List acceptedRequest)
    (bodies : List (List Nat))
    (hlen : (reqs.filter (fun r => r.expectResponse)).length = bodies.length)
    (hcorr : ∀ r ∈ reqs, -2147483648 ≤ r.correlation_id ∧
        r.correlation_id < 2147483648)
    (hbody : ∀ b ∈ bodies, 1 ≤ b.length ∧ b.length ≤ 131066) :
    (sendRequestLoop reqs).1 = reqs.map (fun r => r.bytes) ∧
    (sendRequestLoop reqs).2 = reqs.filter (fun r => r.expectResponse) ∧
    rcvResponseLoop s ((sendRequestLoop reqs).2.map promiseOf)
        ((((sendRequestLoop reqs).2.map promiseOf).zip bodies).flatMap
          (fun q => encodeFrame q.1.correlation_id q.2))
      = (s, ((reqs.filter (fun r => r.expectResponse)).map
            (fun r => r.correlation_id)).zip bodies, none) := by
  refine ⟨sendRequestLoop_writes reqs, sendRequestLoop_responses reqs, ?_⟩
  rw [sendRequestLoop_responses]
  rw [rcvResponseLoop_inorder s _ bodies (by simpa using hlen)
    (fun p hp => by
      obtain ⟨r, hr, rfl⟩ := List.mem_map.mp hp
      exact hcorr r (List.mem_filter.mp hr).1)
    hbody]
  rw [List.map_map]
  rfl

/-- Witness for C1 on a concrete three-request pipeline (the middle request
expects no reply): wire order is acceptance order, and the two replies are
delivered FIFO to correlation ids 0 and 2. -/
theorem pipeline_fifo_witness :
    (sendRequestLoop [⟨0, [1, 2], true⟩, ⟨1, [3], false⟩, ⟨2, [4], true⟩]).1
        = [[1, 2], [3], [4]] ∧
    (sendRequestLoop [⟨0, [1, 2], true⟩, ⟨1, [3], false⟩, ⟨2, [4], true⟩]).2
        = [⟨0, [1, 2], true⟩, ⟨2, [4], true⟩] ∧
    rcvResponseLoop ⟨true, true, true, 0⟩
        ((sendRequestLoop [⟨0, [1, 2], true⟩, ⟨1, [3], false⟩, ⟨2, [4], true⟩]).2.map
          promiseOf)
        ((((sendRequestLoop
            [⟨0, [1, 2], true⟩, ⟨1, [3], false⟩, ⟨2, [4], true⟩]).2.map
              promiseOf).zip [[9], [8]]).flatMap
          (fun q => encodeFrame q.1.correlation_id q.2))
      = (⟨true, true, true, 0⟩, [(0, [9]), (2, [8])], none) := by
  have h := pipeline_fifo ⟨true, true, true, 0⟩
    [⟨0, [1, 2], true⟩, ⟨1, [3], false⟩, ⟨2, [4], true⟩] [[9], [8]]
    (by decide) (by decide) (by decide)
  exact ⟨h.1.trans (by decide), h.2.1.trans (by decide), h.2.2.trans (by decide)⟩

end Kafka
